import Mathlib

/-!
Verification of the cluster coordination core of the secret-store key server,
shallowly embedded from `src/key-server/src/key_server_cluster/cluster.rs`.

Node/session/hash/key identifiers are opaque in the source (addresses, 32-byte
hashes, secp256k1 scalars); they are modelled as natural numbers, keeping only
the structure the code relies on (decidable equality and, for `NodeId`, the
total order that drives `BTreeSet` iteration).  External collaborators (the
transport connection provider, the inner session state machines, the container
type from `cluster_sessions.rs`) are modelled as explicit inputs; the side
effects of one client call (container changes, messages attached to sessions,
calls into the message processor and the trigger connector) are returned as an
explicit event trace.
-/

namespace SecretStore

/-- Node identifier: an opaque, totally ordered public-key address. -/
abbrev NodeId := Nat

/-- 32-byte session identifier, kept abstract. -/
abbrev SessionId := Nat

/-- Fresh random sub-session secret scalar, kept abstract. -/
abbrev Secret := Nat

/-- 32-byte hash value, kept abstract. -/
abbrev H256 := Nat

/-- Public key / EC point, kept abstract. -/
abbrev Public := Nat

/-- Network message, kept abstract: the code only clones and forwards it. -/
abbrev Message := Nat

/-- Requester proof of identity, kept abstract. -/
abbrev Requester := Nat

/-- Administrator signature, kept abstract. -/
abbrev Signature := Nat

/-- Compound id used by decryption, signing and negotiation sessions
(`SessionIdWithSubSession::new(session_id, access_key)`). -/
structure SessionIdWithSubSession where
  id : SessionId
  access_key : Secret
deriving DecidableEq

/-- Error kinds of the key-server cluster (section 7 of the spec; the error
module itself is outside the sources, so the taxonomy is taken from the spec). -/
inductive Error where
  | NodeDisconnected
  | DuplicateSessionId
  | HasActiveSessions
  | NotEnoughNodesForThreshold
  | InvalidMessage
  | InvalidNodesConfiguration
  | AccessDenied
  | ConsensusUnreachable
  | Internal (reason : String)
deriving DecidableEq

/-- `ClusterView`: the frozen-membership communication capability handed to a
single session.  The `connections : Arc<dyn ConnectionProvider>` field of the
source struct is the mutable transport connection table; it is modelled as an
explicit `conn : NodeId → Bool` argument of `broadcast` and `send` (whether
`connections.connection(node)` returns `Some` at call time). -/
structure ClusterView where
  configured_nodes_count : Nat
  connected_nodes : Finset NodeId
  self_address : NodeId

/-- `ClusterView::new(self_key_pair, connections, nodes, configured_nodes_count)`. -/
def ClusterView.new (self_address : NodeId) (nodes : Finset NodeId)
    (configured_nodes_count : Nat) : ClusterView :=
  { configured_nodes_count := configured_nodes_count
    connected_nodes := nodes
    self_address := self_address }

/-- `Cluster::nodes` for `ClusterView`: clone of the frozen snapshot. -/
def ClusterView.nodes (v : ClusterView) : Finset NodeId :=
  v.connected_nodes

/-- `Cluster::is_connected` for `ClusterView`: membership in the frozen snapshot. -/
def ClusterView.is_connected (v : ClusterView) (node : NodeId) : Bool :=
  decide (node ∈ v.connected_nodes)

/-- `Cluster::connected_nodes_count` for `ClusterView`. -/
def ClusterView.connected_nodes_count (v : ClusterView) : Nat :=
  v.connected_nodes.card

/-- The loop body of `ClusterView::broadcast`: walk the peers in iteration
order; for each peer look its connection up (error `NodeDisconnected` and stop
if absent), otherwise send the message to it.  Returns the messages actually
handed to `send_message` together with the overall result. -/
def broadcastLoop (msg : Message) (conn : NodeId → Bool) :
    List NodeId → List (NodeId × Message) × Except Error Unit
  | [] => ([], Except.ok ())
  | n :: rest =>
    if conn n then
      let r := broadcastLoop msg conn rest
      ((n, msg) :: r.1, r.2)
    else
      ([], Except.error Error.NodeDisconnected)

/-- `ClusterView::broadcast`: iterate the snapshot (a `BTreeSet`, hence in
ascending `NodeId` order), skipping the own address. -/
def ClusterView.broadcast (v : ClusterView) (conn : NodeId → Bool) (msg : Message) :
    List (NodeId × Message) × Except Error Unit :=
  broadcastLoop msg conn
    ((v.connected_nodes.sort (· ≤ ·)).filter (fun n => decide (n ≠ v.self_address)))

/-- `ClusterView::send`: look up the connection (error `NodeDisconnected` if
absent), then send. -/
def ClusterView.send (v : ClusterView) (conn : NodeId → Bool) (dest : NodeId)
    (msg : Message) : List (NodeId × Message) × Except Error Unit :=
  if conn dest then ([(dest, msg)], Except.ok ()) else ([], Except.error Error.NodeDisconnected)

theorem broadcastLoop_sends_mem (msg : Message) (conn : NodeId → Bool)
    (l : List NodeId) : ∀ p ∈ (broadcastLoop msg conn l).1, p.1 ∈ l ∧ p.2 = msg := by
  induction l with
  | nil => simp [broadcastLoop]
  | cons n rest ih =>
    by_cases h : conn n = true
    · intro p hp
      simp only [broadcastLoop, h, if_true] at hp
      rcases List.mem_cons.mp hp with rfl | hp'
      · exact ⟨List.mem_cons_self _ _, rfl⟩
      · exact ⟨List.mem_cons_of_mem _ (ih p hp').1, (ih p hp').2⟩
    · intro p hp
      simp [broadcastLoop, h] at hp

theorem broadcastLoop_all_connected (msg : Message) (conn : NodeId → Bool)
    (l : List NodeId) (h : ∀ n ∈ l, conn n = true) :
    broadcastLoop msg conn l = (l.map (fun n => (n, msg)), Except.ok ()) := by
  induction l with
  | nil => simp [broadcastLoop]
  | cons n rest ih =>
    have hn : conn n = true := h n (List.mem_cons_self _ _)
    have hrest : ∀ m ∈ rest, conn m = true := fun m hm => h m (List.mem_cons_of_mem _ hm)
    simp [broadcastLoop, hn, ih hrest]

theorem broadcastLoop_some_disconnected (msg : Message) (conn : NodeId → Bool)
    (l : List NodeId) (h : ∃ n ∈ l, conn n = false) :
    broadcastLoop msg conn l =
      ((l.takeWhile conn).map (fun n => (n, msg)), Except.error Error.NodeDisconnected) := by
  induction l with
  | nil => simp at h
  | cons n rest ih =>
    by_cases hn : conn n = true
    · have hrest : ∃ m ∈ rest, conn m = false := by
        obtain ⟨m, hm, hmc⟩ := h
        rcases List.mem_cons.mp hm with rfl | hm'
        · rw [hn] at hmc; cases hmc
        · exact ⟨m, hm', hmc⟩
      simp [broadcastLoop, hn, ih hrest, List.takeWhile_cons]
    · have hn' : conn n = false := Bool.eq_false_iff.mpr (fun hc => hn hc)
      simp [broadcastLoop, hn', List.takeWhile_cons]

theorem ClusterView.broadcast_peers_mem (v : ClusterView) (n : NodeId) :
    n ∈ (v.connected_nodes.sort (· ≤ ·)).filter (fun m => decide (m ≠ v.self_address)) ↔
      n ∈ v.connected_nodes ∧ n ≠ v.self_address := by
  rw [List.mem_filter, Finset.mem_sort, decide_eq_true_eq]

/-- C4: a `ClusterView` constructed with node set `s` and configured count `c`
answers `nodes() = s`, `is_connected(n) ↔ n ∈ s`, `connected_nodes_count() = |s|`
and `configured_nodes_count() = c`.  The struct has no mutating method and none
of these accessors consults the transport connection table (which `broadcast`
and `send` receive as a separate argument in this embedding), so the answers
cannot change for the lifetime of the view. -/
theorem ClusterView_snapshot_frozen (self_address : NodeId) (s : Finset NodeId)
    (c : Nat) (n : NodeId) :
    (ClusterView.new self_address s c).nodes = s ∧
    ((ClusterView.new self_address s c).is_connected n = true ↔ n ∈ s) ∧
    (ClusterView.new self_address s c).connected_nodes_count = s.card ∧
    (ClusterView.new self_address s c).configured_nodes_count = c := by
  refine ⟨rfl, ?_, rfl, rfl⟩
  simp [ClusterView.new, ClusterView.is_connected]

/-- C5: `broadcast` fails with `NodeDisconnected` when some snapshot peer other
than self is missing from the transport connection table; otherwise it sends
the message to exactly the snapshot peers other than self and returns `Ok`;
and it never sends to self, even when self is in the snapshot. -/
theorem ClusterView_broadcast_spec (v : ClusterView) (conn : NodeId → Bool)
    (msg : Message) :
    ((∃ n ∈ v.connected_nodes, n ≠ v.self_address ∧ conn n = false) →
      (v.broadcast conn msg).2 = Except.error Error.NodeDisconnected) ∧
    ((∀ n ∈ v.connected_nodes, n ≠ v.self_address → conn n = true) →
      (v.broadcast conn msg).2 = Except.ok () ∧
      ∀ n : NodeId, (n, msg) ∈ (v.broadcast conn msg).1 ↔
        n ∈ v.connected_nodes ∧ n ≠ v.self_address) ∧
    (∀ m : Message, (v.self_address, m) ∉ (v.broadcast conn msg).1) := by
  refine ⟨?_, ?_, ?_⟩
  · rintro ⟨n, hn, hne, hconn⟩
    have hmem : n ∈ (v.connected_nodes.sort (· ≤ ·)).filter
        (fun m => decide (m ≠ v.self_address)) :=
      (ClusterView.broadcast_peers_mem v n).mpr ⟨hn, hne⟩
    rw [ClusterView.broadcast, broadcastLoop_some_disconnected msg conn _ ⟨n, hmem, hconn⟩]
  · intro h
    have hall : ∀ n ∈ (v.connected_nodes.sort (· ≤ ·)).filter
        (fun m => decide (m ≠ v.self_address)), conn n = true := by
      intro n hn
      obtain ⟨hn', hne⟩ := (ClusterView.broadcast_peers_mem v n).mp hn
      exact h n hn' hne
    rw [ClusterView.broadcast, broadcastLoop_all_connected msg conn _ hall]
    refine ⟨rfl, fun n => ?_⟩
    rw [← ClusterView.broadcast_peers_mem v n]
    constructor
    · intro hmem
      obtain ⟨a, ha, hae⟩ := List.mem_map.mp hmem
      obtain ⟨rfl, -⟩ := Prod.mk.injEq .. ▸ Prod.mk.inj hae
      exact ha
    · intro hmem
      exact List.mem_map.mpr ⟨n, hmem, rfl⟩
  · intro m hm
    have := broadcastLoop_sends_mem msg conn _ _ hm
    obtain ⟨hmem, -⟩ := this
    obtain ⟨-, hne⟩ := (ClusterView.broadcast_peers_mem v _).mp hmem
    exact hne rfl

theorem ClusterView_broadcast_spec_witness :
    (ClusterView.broadcast (ClusterView.new 0 {1, 2} 3) (fun n => n == 1) 5).2 =
        Except.error Error.NodeDisconnected ∧
    (ClusterView.broadcast (ClusterView.new 0 {1, 2} 3) (fun _ => true) 5).2 =
        Except.ok () ∧
    ((1, 5) ∈ (ClusterView.broadcast (ClusterView.new 0 {1, 2} 3) (fun _ => true) 5).1) ∧
    ((0, 5) ∉ (ClusterView.broadcast (ClusterView.new 0 {1, 2} 3) (fun _ => true) 5).1) := by
  refine ⟨?_, ?_, ?_, ?_⟩
  · exact (ClusterView_broadcast_spec (ClusterView.new 0 {1, 2} 3) (fun n => n == 1) 5).1
      ⟨2, by decide, by decide, by decide⟩
  · exact ((ClusterView_broadcast_spec (ClusterView.new 0 {1, 2} 3) (fun _ => true) 5).2.1
      (fun n _ _ => rfl)).1
  · exact (((ClusterView_broadcast_spec (ClusterView.new 0 {1, 2} 3) (fun _ => true) 5).2.1
      (fun n _ _ => rfl)).2 1).mpr ⟨by decide, by decide⟩
  · exact (ClusterView_broadcast_spec (ClusterView.new 0 {1, 2} 3) (fun _ => true) 5).2.2 5

/-- C10: when `broadcast` fails, it has already handed the message to exactly
the snapshot peers (other than self) that precede, in ascending `NodeId`
order, the first peer missing from the transport connection table; nothing
undoes those sends. -/
theorem ClusterView_broadcast_error_partial_sends (v : ClusterView)
    (conn : NodeId → Bool) (msg : Message)
    (h : (v.broadcast conn msg).2 = Except.error Error.NodeDisconnected) :
    (v.broadcast conn msg).1 =
      (((v.connected_nodes.sort (· ≤ ·)).filter
          (fun n => decide (n ≠ v.self_address))).takeWhile conn).map
        (fun n => (n, msg)) := by
  by_cases hall : ∀ n ∈ (v.connected_nodes.sort (· ≤ ·)).filter
      (fun m => decide (m ≠ v.self_address)), conn n = true
  · rw [ClusterView.broadcast, broadcastLoop_all_connected msg conn _ hall] at h
    cases h
  · push_neg at hall
    obtain ⟨n, hn, hne⟩ := hall
    have hn' : conn n = false := Bool.eq_false_iff.mpr hne
    rw [ClusterView.broadcast, broadcastLoop_some_disconnected msg conn _ ⟨n, hn, hn'⟩]

theorem ClusterView_broadcast_error_partial_sends_witness :
    (ClusterView.broadcast (ClusterView.new 0 {1, 2, 3} 4) (fun n => n != 2) 5).1 =
      [(1, 5)] := by
  have herr : (ClusterView.broadcast (ClusterView.new 0 {1, 2, 3} 4)
      (fun n => n != 2) 5).2 = Except.error Error.NodeDisconnected := by
    simp [ClusterView.broadcast, ClusterView.new, Finset.sort_insert, broadcastLoop]
  rw [ClusterView_broadcast_error_partial_sends (ClusterView.new 0 {1, 2, 3} 4)
    (fun n => n != 2) 5 herr]
  simp [ClusterView.new, Finset.sort_insert, List.takeWhile_cons]

/-- Snapshot of the transport `ConnectionProvider` at the moment of one client
call: the result of `connected_nodes()` (which may fail) and the set returned
by `disconnected_nodes()`. -/
structure ConnectionProvider where
  connected_nodes : Except Error (Finset NodeId)
  disconnected_nodes : Finset NodeId

/-- Modelled from the spec: `create_cluster_view` lives in
`cluster_sessions.rs`, which is not among the sources.  Per spec 4.3 it
(a) snapshots the connected peers (propagating the transport error),
(b) adds the own address, (c) builds a `ClusterView`; the configured count
includes disconnected nodes.  When its boolean argument requires the whole
configured set (generation, encryption, admin sessions), a non-empty
disconnected set fails with `NodeDisconnected` (spec scenario 1). -/
def create_cluster_view (self_address : NodeId) (provider : ConnectionProvider)
    (requires_all_connected : Bool) : Except Error ClusterView :=
  match provider.connected_nodes with
  | Except.error e => Except.error e
  | Except.ok tn =>
    if requires_all_connected ∧ provider.disconnected_nodes ≠ ∅ then
      Except.error Error.NodeDisconnected
    else
      Except.ok (ClusterView.new self_address (insert self_address tn)
        ((insert self_address tn).card + provider.disconnected_nodes.card))

/-- Modelled from the spec: `ClusterSessionsContainer::insert` lives in
`cluster_sessions.rs`, which is not among the sources.  Per spec 4.2 a
duplicate id fails with `DuplicateSessionId`; when `is_exclusive` is set and
any session of the container is live, insertion fails with
`HasActiveSessions`; otherwise the session is added. -/
def containerInsert {α : Type} [DecidableEq α] (container : Finset α) (sid : α)
    (is_exclusive : Bool) : Except Error (Finset α) :=
  if sid ∈ container then Except.error Error.DuplicateSessionId
  else if is_exclusive ∧ container ≠ ∅ then Except.error Error.HasActiveSessions
  else Except.ok (insert sid container)

/-- The connected-node set computed at the start of each client
session-starting operation: the transport snapshot with the own address
inserted (`connected_nodes.insert(self_key_pair.address())` in
`new_decryption_session`, `new_schnorr_signing_session`,
`new_ecdsa_signing_session` and `create_key_version_negotiation_session`). -/
def clientConnectedNodes (self_address : NodeId) (provider : ConnectionProvider) :
    Except Error (Finset NodeId) :=
  match provider.connected_nodes with
  | Except.error e => Except.error e
  | Except.ok tn => Except.ok (insert self_address tn)

/-- `ContinueAction`: the one-shot follow-up attached to a key-version
negotiation session.  The carried session is identified by its compound id. -/
inductive ContinueAction where
  | Decrypt (session : SessionIdWithSubSession) (origin : Option NodeId)
      (is_shadow_decryption : Bool) (is_broadcast_decryption : Bool)
  | SchnorrSign (session : SessionIdWithSubSession) (message_hash : H256)
  | EcdsaSign (session : SessionIdWithSubSession) (message_hash : H256)
deriving DecidableEq

/-- Observable effects of one client call, in program order: container
insertions, calls into inner-session one-time setup, attaching a
`ContinueAction`, `MessageProcessor::try_continue_session`, and
`ServersSetChangeSessionCreatorConnector::set_key_servers_set_change_session`. -/
inductive Event where
  | InsertDecryptionSession (sid : SessionIdWithSubSession)
  | InsertSchnorrSession (sid : SessionIdWithSubSession)
  | InsertEcdsaSession (sid : SessionIdWithSubSession)
  | InsertNegotiationSession (sid : SessionIdWithSubSession)
  | InsertAdminSession (sid : SessionId)
  | InitDecryption (sid : SessionIdWithSubSession) (origin : Option NodeId)
      (version : H256) (is_shadow_decryption is_broadcast_decryption : Bool)
  | InitSchnorrSigning (sid : SessionIdWithSubSession) (version : H256)
      (message_hash : H256)
  | InitEcdsaSigning (sid : SessionIdWithSubSession) (version : H256)
      (message_hash : H256)
  | InitNegotiation (sid : SessionIdWithSubSession) (nodes : Finset NodeId)
  | InitServersSetChange (sid : SessionId) (new_nodes_set : Finset NodeId)
  | SetContinueAction (sid : SessionIdWithSubSession) (action : ContinueAction)
  | TryContinueSession (sid : SessionIdWithSubSession)
  | SetKeyServersSetChangeSession (sid : SessionId)
deriving DecidableEq

/-- `process_initialization_result`: on `Ok` with the session already finished,
remove it from its container and return it; on `Ok` otherwise just return it;
on `Err` remove it and surface the error.  The container is a set of session
ids; `is_finished` is the answer of `session.is_finished()`. -/
def process_initialization_result {α : Type} [DecidableEq α]
    (result : Except Error Unit) (sid : α) (is_finished : Bool)
    (container : Finset α) : Finset α × Except Error α :=
  match result with
  | Except.ok _ =>
    if is_finished then (container.erase sid, Except.ok sid)
    else (container, Except.ok sid)
  | Except.error e => (container.erase sid, Except.error e)

/-- `ClusterClientImpl::create_key_version_negotiation_session`: snapshot the
connected nodes and add self, draw a fresh access key, build a non-exclusive
cluster view, insert the negotiation session, then run its one-time setup with
the connected-node set; on setup failure remove the session again.
`negSessionInit` is the inner state machine (`SessionImpl::initialize`).
Returns the updated negotiation container, the event trace and the result. -/
def create_key_version_negotiation_session (self_address : NodeId)
    (provider : ConnectionProvider) (access_key : Secret)
    (negotiation_sessions : Finset SessionIdWithSubSession)
    (negSessionInit : Finset NodeId → Except Error Unit)
    (session_id : SessionId) :
    Finset SessionIdWithSubSession × List Event × Except Error SessionIdWithSubSession :=
  match clientConnectedNodes self_address provider with
  | Except.error e => (negotiation_sessions, [], Except.error e)
  | Except.ok connected_nodes =>
    let sid : SessionIdWithSubSession := ⟨session_id, access_key⟩
    match create_cluster_view self_address provider false with
    | Except.error e => (negotiation_sessions, [], Except.error e)
    | Except.ok _cluster =>
      match containerInsert negotiation_sessions sid false with
      | Except.error e => (negotiation_sessions, [], Except.error e)
      | Except.ok inserted =>
        match negSessionInit connected_nodes with
        | Except.ok _ =>
          (inserted,
           [Event.InsertNegotiationSession sid, Event.InitNegotiation sid connected_nodes],
           Except.ok sid)
        | Except.error e =>
          (inserted.erase sid,
           [Event.InsertNegotiationSession sid, Event.InitNegotiation sid connected_nodes],
           Except.error e)

/-- `ClusterClientImpl::new_decryption_session`.  `access_key` and
`neg_access_key` are the two `Random.generate()` draws (decryption session,
then negotiation sub-session); `decSessionInit` is the inner decryption state
machine setup; `dec_is_finished` is `session.is_finished()` at the final
`process_initialization_result`.  Returns the updated (decryption,
negotiation) containers, the event trace and the result. -/
def new_decryption_session (self_address : NodeId) (provider : ConnectionProvider)
    (access_key neg_access_key : Secret)
    (decryption_sessions negotiation_sessions : Finset SessionIdWithSubSession)
    (decSessionInit : Option NodeId → H256 → Bool → Bool → Except Error Unit)
    (negSessionInit : Finset NodeId → Except Error Unit)
    (dec_is_finished : Bool)
    (session_id : SessionId) (origin : Option NodeId) (requester : Requester)
    (version : Option H256)
    (is_shadow_decryption is_broadcast_decryption : Bool) :
    (Finset SessionIdWithSubSession × Finset SessionIdWithSubSession) × List Event ×
      Except Error SessionIdWithSubSession :=
  match clientConnectedNodes self_address provider with
  | Except.error e => ((decryption_sessions, negotiation_sessions), [], Except.error e)
  | Except.ok _connected_nodes =>
    let sid : SessionIdWithSubSession := ⟨session_id, access_key⟩
    match create_cluster_view self_address provider false with
    | Except.error e => ((decryption_sessions, negotiation_sessions), [], Except.error e)
    | Except.ok _cluster =>
      match containerInsert decryption_sessions sid false with
      | Except.error e => ((decryption_sessions, negotiation_sessions), [], Except.error e)
      | Except.ok dec_inserted =>
        match version with
        | some v =>
          let finalized := process_initialization_result
            (decSessionInit origin v is_shadow_decryption is_broadcast_decryption)
            sid dec_is_finished dec_inserted
          ((finalized.1, negotiation_sessions),
           [Event.InsertDecryptionSession sid,
            Event.InitDecryption sid origin v is_shadow_decryption is_broadcast_decryption],
           finalized.2)
        | none =>
          let neg := create_key_version_negotiation_session self_address provider
            neg_access_key negotiation_sessions negSessionInit session_id
          match neg.2.2 with
          | Except.ok neg_sid =>
            let finalized := process_initialization_result (Except.ok ()) sid
              dec_is_finished dec_inserted
            ((finalized.1, neg.1),
             Event.InsertDecryptionSession sid :: neg.2.1 ++
               [Event.SetContinueAction neg_sid
                  (ContinueAction.Decrypt sid origin is_shadow_decryption
                    is_broadcast_decryption),
                Event.TryContinueSession neg_sid],
             finalized.2)
          | Except.error e =>
            let finalized := process_initialization_result (Except.error e) sid
              dec_is_finished dec_inserted
            ((finalized.1, neg.1),
             Event.InsertDecryptionSession sid :: neg.2.1,
             finalized.2)

/-- `ClusterClientImpl::new_schnorr_signing_session`, analogous to
`new_decryption_session` with a `SchnorrSign` continue action. -/
def new_schnorr_signing_session (self_address : NodeId) (provider : ConnectionProvider)
    (access_key neg_access_key : Secret)
    (schnorr_signing_sessions negotiation_sessions : Finset SessionIdWithSubSession)
    (signSessionInit : H256 → H256 → Except Error Unit)
    (negSessionInit : Finset NodeId → Except Error Unit)
    (sign_is_finished : Bool)
    (session_id : SessionId) (requester : Requester)
    (version : Option H256) (message_hash : H256) :
    (Finset SessionIdWithSubSession × Finset SessionIdWithSubSession) × List Event ×
      Except Error SessionIdWithSubSession :=
  match clientConnectedNodes self_address provider with
  | Except.error e => ((schnorr_signing_sessions, negotiation_sessions), [], Except.error e)
  | Except.ok _connected_nodes =>
    let sid : SessionIdWithSubSession := ⟨session_id, access_key⟩
    match create_cluster_view self_address provider false with
    | Except.error e => ((schnorr_signing_sessions, negotiation_sessions), [], Except.error e)
    | Except.ok _cluster =>
      match containerInsert schnorr_signing_sessions sid false with
      | Except.error e => ((schnorr_signing_sessions, negotiation_sessions), [], Except.error e)
      | Except.ok sign_inserted =>
        match version with
        | some v =>
          let finalized := process_initialization_result (signSessionInit v message_hash)
            sid sign_is_finished sign_inserted
          ((finalized.1, negotiation_sessions),
           [Event.InsertSchnorrSession sid, Event.InitSchnorrSigning sid v message_hash],
           finalized.2)
        | none =>
          let neg := create_key_version_negotiation_session self_address provider
            neg_access_key negotiation_sessions negSessionInit session_id
          match neg.2.2 with
          | Except.ok neg_sid =>
            let finalized := process_initialization_result (Except.ok ()) sid
              sign_is_finished sign_inserted
            ((finalized.1, neg.1),
             Event.InsertSchnorrSession sid :: neg.2.1 ++
               [Event.SetContinueAction neg_sid (ContinueAction.SchnorrSign sid message_hash),
                Event.TryContinueSession neg_sid],
             finalized.2)
          | Except.error e =>
            let finalized := process_initialization_result (Except.error e) sid
              sign_is_finished sign_inserted
            ((finalized.1, neg.1),
             Event.InsertSchnorrSession sid :: neg.2.1,
             finalized.2)

/-- `ClusterClientImpl::new_ecdsa_signing_session`, analogous to
`new_schnorr_signing_session` with an `EcdsaSign` continue action. -/
def new_ecdsa_signing_session (self_address : NodeId) (provider : ConnectionProvider)
    (access_key neg_access_key : Secret)
    (ecdsa_signing_sessions negotiation_sessions : Finset SessionIdWithSubSession)
    (signSessionInit : H256 → H256 → Except Error Unit)
    (negSessionInit : Finset NodeId → Except Error Unit)
    (sign_is_finished : Bool)
    (session_id : SessionId) (requester : Requester)
    (version : Option H256) (message_hash : H256) :
    (Finset SessionIdWithSubSession × Finset SessionIdWithSubSession) × List Event ×
      Except Error SessionIdWithSubSession :=
  match clientConnectedNodes self_address provider with
  | Except.error e => ((ecdsa_signing_sessions, negotiation_sessions), [], Except.error e)
  | Except.ok _connected_nodes =>
    let sid : SessionIdWithSubSession := ⟨session_id, access_key⟩
    match create_cluster_view self_address provider false with
    | Except.error e => ((ecdsa_signing_sessions, negotiation_sessions), [], Except.error e)
    | Except.ok _cluster =>
      match containerInsert ecdsa_signing_sessions sid false with
      | Except.error e => ((ecdsa_signing_sessions, negotiation_sessions), [], Except.error e)
      | Except.ok sign_inserted =>
        match version with
        | some v =>
          let finalized := process_initialization_result (signSessionInit v message_hash)
            sid sign_is_finished sign_inserted
          ((finalized.1, negotiation_sessions),
           [Event.InsertEcdsaSession sid, Event.InitEcdsaSigning sid v message_hash],
           finalized.2)
        | none =>
          let neg := create_key_version_negotiation_session self_address provider
            neg_access_key negotiation_sessions negSessionInit session_id
          match neg.2.2 with
          | Except.ok neg_sid =>
            let finalized := process_initialization_result (Except.ok ()) sid
              sign_is_finished sign_inserted
            ((finalized.1, neg.1),
             Event.InsertEcdsaSession sid :: neg.2.1 ++
               [Event.SetContinueAction neg_sid (ContinueAction.EcdsaSign sid message_hash),
                Event.TryContinueSession neg_sid],
             finalized.2)
          | Except.error e =>
            let finalized := process_initialization_result (Except.error e) sid
              sign_is_finished sign_inserted
            ((finalized.1, neg.1),
             Event.InsertEcdsaSession sid :: neg.2.1,
             finalized.2)

/-- Modelled from the spec: the well-known fixed servers-set-change session id
(`SERVERS_SET_CHANGE_SESSION_ID` in `cluster_sessions.rs`, not among the
sources).  The concrete byte pattern is irrelevant to the claims; all that
matters is that it is one fixed value. -/
def SERVERS_SET_CHANGE_SESSION_ID : SessionId := 1

/-- Arguments of `new_servers_set_change_session`. -/
structure ServersSetChangeParams where
  session_id : Option SessionId
  migration_id : Option H256
  new_nodes_set : Finset NodeId
  old_set_signature : Signature
  new_set_signature : Signature

/-- `new_servers_set_change_session`: resolve the session id (a supplied id
must equal the well-known constant, otherwise `InvalidMessage`; an absent id
means the constant), build an exclusive cluster view, insert the admin
session, run its one-time setup, on setup `Ok` publish the session to the
trigger connector, then apply `process_initialization_result`.
`sscSessionInit` is the inner servers-set-change state machine setup applied
to `(new_nodes_set, old_set_signature, new_set_signature)`. -/
def new_servers_set_change_session (self_address : NodeId)
    (provider : ConnectionProvider) (admin_sessions : Finset SessionId)
    (sscSessionInit : Finset NodeId → Signature → Signature → Except Error Unit)
    (ssc_is_finished : Bool) (params : ServersSetChangeParams) :
    Finset SessionId × List Event × Except Error SessionId :=
  match (match params.session_id with
         | some sid =>
           if sid = SERVERS_SET_CHANGE_SESSION_ID then Except.ok sid
           else Except.error Error.InvalidMessage
         | none => Except.ok SERVERS_SET_CHANGE_SESSION_ID :
         Except Error SessionId) with
  | Except.error e => (admin_sessions, [], Except.error e)
  | Except.ok session_id =>
    match create_cluster_view self_address provider true with
    | Except.error e => (admin_sessions, [], Except.error e)
    | Except.ok _cluster =>
      match containerInsert admin_sessions session_id true with
      | Except.error e => (admin_sessions, [], Except.error e)
      | Except.ok inserted =>
        let result := sscSessionInit params.new_nodes_set
          params.old_set_signature params.new_set_signature
        let connector_events : List Event :=
          match result with
          | Except.ok _ => [Event.SetKeyServersSetChangeSession session_id]
          | Except.error _ => []
        let finalized := process_initialization_result result session_id
          ssc_is_finished inserted
        (finalized.1,
         Event.InsertAdminSession session_id ::
           Event.InitServersSetChange session_id params.new_nodes_set :: connector_events,
         finalized.2)

theorem clientConnectedNodes_self_mem (self_address : NodeId)
    (provider : ConnectionProvider) (s : Finset NodeId)
    (h : clientConnectedNodes self_address provider = Except.ok s) :
    self_address ∈ s := by
  unfold clientConnectedNodes at h
  cases htn : provider.connected_nodes with
  | error e => rw [htn] at h; cases h
  | ok tn =>
    rw [htn] at h
    injection h with h
    rw [← h]
    exact Finset.mem_insert_self _ _

/-- C3: `process_initialization_result` on `Err(e)` removes the just-inserted
session from its container and returns `Err(e)`; on `Ok` with the session in a
terminal state it removes the session and returns it; on `Ok` with a
non-terminal session it leaves the container unchanged and returns the
session. -/
theorem process_initialization_result_spec {α : Type} [DecidableEq α] (sid : α)
    (container : Finset α) (is_finished : Bool) :
    (∀ e : Error, process_initialization_result (Except.error e) sid is_finished container =
      (container.erase sid, Except.error e)) ∧
    process_initialization_result (Except.ok ()) sid true container =
      (container.erase sid, Except.ok sid) ∧
    process_initialization_result (Except.ok ()) sid false container =
      (container, Except.ok sid) := by
  refine ⟨fun e => rfl, ?_, ?_⟩ <;> simp [process_initialization_result]

/-- C2: `new_servers_set_change_session` with a supplied session id other than
`SERVERS_SET_CHANGE_SESSION_ID` fails with `InvalidMessage` before touching the
admin container; supplying the constant behaves exactly like supplying no id,
and in that case any successfully returned session id is the constant. -/
theorem new_servers_set_change_session_id_check (self_address : NodeId)
    (provider : ConnectionProvider) (admin_sessions : Finset SessionId)
    (sscSessionInit : Finset NodeId → Signature → Signature → Except Error Unit)
    (ssc_is_finished : Bool) (migration_id : Option H256)
    (new_nodes_set : Finset NodeId) (old_sig new_sig : Signature) :
    (∀ sid : SessionId, sid ≠ SERVERS_SET_CHANGE_SESSION_ID →
      new_servers_set_change_session self_address provider admin_sessions
          sscSessionInit ssc_is_finished
          ⟨some sid, migration_id, new_nodes_set, old_sig, new_sig⟩ =
        (admin_sessions, [], Except.error Error.InvalidMessage)) ∧
    (new_servers_set_change_session self_address provider admin_sessions
        sscSessionInit ssc_is_finished
        ⟨some SERVERS_SET_CHANGE_SESSION_ID, migration_id, new_nodes_set, old_sig, new_sig⟩ =
      new_servers_set_change_session self_address provider admin_sessions
        sscSessionInit ssc_is_finished
        ⟨none, migration_id, new_nodes_set, old_sig, new_sig⟩) ∧
    (∀ sid : SessionId,
      (new_servers_set_change_session self_address provider admin_sessions
        sscSessionInit ssc_is_finished
        ⟨none, migration_id, new_nodes_set, old_sig, new_sig⟩).2.2 = Except.ok sid →
      sid = SERVERS_SET_CHANGE_SESSION_ID) := by
  refine ⟨fun sid hsid => ?_, rfl, fun sid h => ?_⟩
  · simp [new_servers_set_change_session, hsid]
  · unfold new_servers_set_change_session at h
    simp only at h
    split at h
    · cases h
    · split at h
      · cases h
      · rcases hres : sscSessionInit new_nodes_set old_sig new_sig with e | u
        · rw [hres] at h
          simp [process_initialization_result] at h
        · rw [hres] at h
          simp only [process_initialization_result] at h
          split at h
          · injection h with h2
            exact h2.symm
          · injection h with h2
            exact h2.symm

theorem new_servers_set_change_session_id_check_witness :
    new_servers_set_change_session 0 ⟨Except.ok ∅, ∅⟩ ∅ (fun _ _ _ => Except.ok ()) false
        ⟨some 7, none, ∅, 0, 0⟩ =
      ((∅ : Finset SessionId), [], Except.error Error.InvalidMessage) := by
  exact (new_servers_set_change_session_id_check 0 ⟨Except.ok ∅, ∅⟩ ∅
    (fun _ _ _ => Except.ok ()) false none ∅ 0 0).1 7 (by decide)

theorem containerInsert_ok {α : Type} [DecidableEq α] (c : Finset α) (sid : α)
    (is_exclusive : Bool) (inserted : Finset α)
    (h : containerInsert c sid is_exclusive = Except.ok inserted) :
    sid ∉ c ∧ inserted = insert sid c ∧ (is_exclusive = true → c = ∅) := by
  unfold containerInsert at h
  split at h
  · cases h
  · split at h
    · cases h
    · rename_i h1 h2
      injection h with h3
      refine ⟨h1, h3.symm, fun hex => ?_⟩
      by_contra hne
      exact h2 ⟨hex, hne⟩

/-- C9: in `new_servers_set_change_session` the admin session is handed to the
trigger connector (`set_key_servers_set_change_session`) exactly when its
one-time setup returned `Ok`: a connector event appears in the trace iff the
call returns the session; when the setup fails the inserted admin session is
removed again (the admin container ends as it started), the error is returned
and the connector is never called; and on the reachable setup path the
connector event is present iff the setup result is `Ok`. -/
theorem ssc_connector_called_iff_ok (self_address : NodeId)
    (provider : ConnectionProvider) (admin_sessions : Finset SessionId)
    (sscSessionInit : Finset NodeId → Signature → Signature → Except Error Unit)
    (ssc_is_finished : Bool) (params : ServersSetChangeParams) :
    ((∃ sid, Event.SetKeyServersSetChangeSession sid ∈
        (new_servers_set_change_session self_address provider admin_sessions
          sscSessionInit ssc_is_finished params).2.1) ↔
      (∃ sid, (new_servers_set_change_session self_address provider admin_sessions
          sscSessionInit ssc_is_finished params).2.2 = Except.ok sid)) ∧
    (∀ e, (new_servers_set_change_session self_address provider admin_sessions
          sscSessionInit ssc_is_finished params).2.2 = Except.error e →
      (new_servers_set_change_session self_address provider admin_sessions
          sscSessionInit ssc_is_finished params).1 = admin_sessions ∧
      ∀ sid, Event.SetKeyServersSetChangeSession sid ∉
        (new_servers_set_change_session self_address provider admin_sessions
          sscSessionInit ssc_is_finished params).2.1) ∧
    ((∃ v, create_cluster_view self_address provider true = Except.ok v) →
      params.session_id = none → admin_sessions = ∅ →
      (Event.SetKeyServersSetChangeSession SERVERS_SET_CHANGE_SESSION_ID ∈
        (new_servers_set_change_session self_address provider admin_sessions
          sscSessionInit ssc_is_finished params).2.1 ↔
        sscSessionInit params.new_nodes_set params.old_set_signature
          params.new_set_signature = Except.ok ())) := by
  refine ⟨?_, ?_, ?_⟩
  · unfold new_servers_set_change_session
    split
    · simp
    · split
      · simp
      · split
        · simp
        · rcases hres : sscSessionInit params.new_nodes_set params.old_set_signature
            params.new_set_signature with e | u
          · cases ssc_is_finished <;>
              simp [hres, process_initialization_result]
          · cases ssc_is_finished <;>
              simp [hres, process_initialization_result]
  · unfold new_servers_set_change_session
    split
    · intro e he
      exact ⟨rfl, by simp⟩
    · split
      · intro e he
        exact ⟨rfl, by simp⟩
      · split
        · intro e he
          exact ⟨rfl, by simp⟩
        · rename_i sid hcheck v hv inserted hins
          rcases hres : sscSessionInit params.new_nodes_set params.old_set_signature
            params.new_set_signature with e | u
          · intro e' he'
            obtain ⟨hnot, hins', hex⟩ := containerInsert_ok _ _ _ _ hins
            have hemp : admin_sessions = ∅ := hex rfl
            subst hins'
            refine ⟨?_, by simp [hres, process_initialization_result]⟩
            simp [hres, process_initialization_result, Finset.erase_insert hnot]
          · intro e' he'
            cases ssc_is_finished <;>
              simp [hres, process_initialization_result] at he'
  · rintro ⟨v, hv⟩ hnone hempty
    subst hempty
    obtain ⟨psid, mig, ns, os, nw⟩ := params
    simp only at hnone
    subst hnone
    rcases hres : sscSessionInit ns os nw with e | u
    · simp [new_servers_set_change_session, hv, containerInsert, hres,
        process_initialization_result]
    · simp [new_servers_set_change_session, hv, containerInsert, hres,
        process_initialization_result]

theorem ssc_connector_called_iff_ok_witness :
    Event.SetKeyServersSetChangeSession SERVERS_SET_CHANGE_SESSION_ID ∈
      (new_servers_set_change_session 0 ⟨Except.ok {2}, ∅⟩ ∅
        (fun _ _ _ => Except.ok ()) false ⟨none, none, ∅, 0, 0⟩).2.1 := by
  exact ((ssc_connector_called_iff_ok 0 ⟨Except.ok {2}, ∅⟩ ∅
    (fun _ _ _ => Except.ok ()) false ⟨none, none, ∅, 0, 0⟩).2.2
    ⟨ClusterView.new 0 {0, 2} 2, by simp [create_cluster_view]⟩ rfl rfl).mpr rfl

theorem create_key_version_negotiation_session_ok (self_address : NodeId)
    (provider : ConnectionProvider) (access_key : Secret)
    (negotiation_sessions : Finset SessionIdWithSubSession)
    (negSessionInit : Finset NodeId → Except Error Unit) (session_id : SessionId)
    (tn : Finset NodeId) (htn : provider.connected_nodes = Except.ok tn)
    (hneg : (⟨session_id, access_key⟩ : SessionIdWithSubSession) ∉ negotiation_sessions)
    (hinit : negSessionInit (insert self_address tn) = Except.ok ()) :
    create_key_version_negotiation_session self_address provider access_key
        negotiation_sessions negSessionInit session_id =
      (insert ⟨session_id, access_key⟩ negotiation_sessions,
       [Event.InsertNegotiationSession ⟨session_id, access_key⟩,
        Event.InitNegotiation ⟨session_id, access_key⟩ (insert self_address tn)],
       Except.ok ⟨session_id, access_key⟩) := by
  simp [create_key_version_negotiation_session, clientConnectedNodes, htn,
    create_cluster_view, containerInsert, hneg, hinit]

/-- C1: on each of `new_decryption_session`, `new_schnorr_signing_session` and
`new_ecdsa_signing_session` with `version = None` (on the path where the
container insertion and the negotiation sub-session creation succeed), the
client creates a key-version-negotiation sub-session for the same base
`SessionId`, attaches to it a `ContinueAction` of the matching kind (`Decrypt`
with the new decryption session, its origin and the shadow/broadcast flags;
`SchnorrSign`/`EcdsaSign` with the new signing session and the message hash)
and then calls `try_continue_session` on that negotiation session, in exactly
that order. -/
theorem client_version_none_attaches_continue_action (self_address : NodeId)
    (provider : ConnectionProvider) (access_key neg_access_key : Secret)
    (decryption_sessions schnorr_sessions ecdsa_sessions negotiation_sessions :
      Finset SessionIdWithSubSession)
    (decSessionInit : Option NodeId → H256 → Bool → Bool → Except Error Unit)
    (schSessionInit ecdSessionInit : H256 → H256 → Except Error Unit)
    (negSessionInit : Finset NodeId → Except Error Unit)
    (dec_is_finished sch_is_finished ecd_is_finished : Bool)
    (session_id : SessionId) (origin : Option NodeId) (requester : Requester)
    (is_shadow_decryption is_broadcast_decryption : Bool) (message_hash : H256)
    (tn : Finset NodeId) (htn : provider.connected_nodes = Except.ok tn)
    (hdec : (⟨session_id, access_key⟩ : SessionIdWithSubSession) ∉ decryption_sessions)
    (hsch : (⟨session_id, access_key⟩ : SessionIdWithSubSession) ∉ schnorr_sessions)
    (hecd : (⟨session_id, access_key⟩ : SessionIdWithSubSession) ∉ ecdsa_sessions)
    (hneg : (⟨session_id, neg_access_key⟩ : SessionIdWithSubSession) ∉ negotiation_sessions)
    (hinit : negSessionInit (insert self_address tn) = Except.ok ()) :
    (new_decryption_session self_address provider access_key neg_access_key
        decryption_sessions negotiation_sessions decSessionInit negSessionInit
        dec_is_finished session_id origin requester none
        is_shadow_decryption is_broadcast_decryption).2.1 =
      [Event.InsertDecryptionSession ⟨session_id, access_key⟩,
       Event.InsertNegotiationSession ⟨session_id, neg_access_key⟩,
       Event.InitNegotiation ⟨session_id, neg_access_key⟩ (insert self_address tn),
       Event.SetContinueAction ⟨session_id, neg_access_key⟩
         (ContinueAction.Decrypt ⟨session_id, access_key⟩ origin
           is_shadow_decryption is_broadcast_decryption),
       Event.TryContinueSession ⟨session_id, neg_access_key⟩] ∧
    (new_schnorr_signing_session self_address provider access_key neg_access_key
        schnorr_sessions negotiation_sessions schSessionInit negSessionInit
        sch_is_finished session_id requester none message_hash).2.1 =
      [Event.InsertSchnorrSession ⟨session_id, access_key⟩,
       Event.InsertNegotiationSession ⟨session_id, neg_access_key⟩,
       Event.InitNegotiation ⟨session_id, neg_access_key⟩ (insert self_address tn),
       Event.SetContinueAction ⟨session_id, neg_access_key⟩
         (ContinueAction.SchnorrSign ⟨session_id, access_key⟩ message_hash),
       Event.TryContinueSession ⟨session_id, neg_access_key⟩] ∧
    (new_ecdsa_signing_session self_address provider access_key neg_access_key
        ecdsa_sessions negotiation_sessions ecdSessionInit negSessionInit
        ecd_is_finished session_id requester none message_hash).2.1 =
      [Event.InsertEcdsaSession ⟨session_id, access_key⟩,
       Event.InsertNegotiationSession ⟨session_id, neg_access_key⟩,
       Event.InitNegotiation ⟨session_id, neg_access_key⟩ (insert self_address tn),
       Event.SetContinueAction ⟨session_id, neg_access_key⟩
         (ContinueAction.EcdsaSign ⟨session_id, access_key⟩ message_hash),
       Event.TryContinueSession ⟨session_id, neg_access_key⟩] := by
  have hkvn := create_key_version_negotiation_session_ok self_address provider
    neg_access_key negotiation_sessions negSessionInit session_id tn htn hneg hinit
  refine ⟨?_, ?_, ?_⟩
  · simp [new_decryption_session, clientConnectedNodes, htn, create_cluster_view,
      containerInsert, hdec, hkvn]
  · simp [new_schnorr_signing_session, clientConnectedNodes, htn, create_cluster_view,
      containerInsert, hsch, hkvn]
  · simp [new_ecdsa_signing_session, clientConnectedNodes, htn, create_cluster_view,
      containerInsert, hecd, hkvn]

theorem client_version_none_attaches_continue_action_witness :
    (new_decryption_session 0 ⟨Except.ok {5}, ∅⟩ 1 2 ∅ ∅
        (fun _ _ _ _ => Except.ok ()) (fun _ => Except.ok ()) false
        7 none 9 none false false).2.1 =
      [Event.InsertDecryptionSession ⟨7, 1⟩,
       Event.InsertNegotiationSession ⟨7, 2⟩,
       Event.InitNegotiation ⟨7, 2⟩ (insert 0 {5}),
       Event.SetContinueAction ⟨7, 2⟩ (ContinueAction.Decrypt ⟨7, 1⟩ none false false),
       Event.TryContinueSession ⟨7, 2⟩] := by
  exact (client_version_none_attaches_continue_action 0 ⟨Except.ok {5}, ∅⟩ 1 2 ∅ ∅ ∅ ∅
    (fun _ _ _ _ => Except.ok ()) (fun _ _ => Except.ok ()) (fun _ _ => Except.ok ())
    (fun _ => Except.ok ()) false false false 7 none 9 false false 11 {5} rfl
    (Finset.not_mem_empty _) (Finset.not_mem_empty _) (Finset.not_mem_empty _)
    (Finset.not_mem_empty _) rfl).1

theorem create_key_version_negotiation_session_init_self (self_address : NodeId)
    (provider : ConnectionProvider) (access_key : Secret)
    (negotiation_sessions : Finset SessionIdWithSubSession)
    (negSessionInit : Finset NodeId → Except Error Unit) (session_id : SessionId)
    (sid : SessionIdWithSubSession) (nodes : Finset NodeId)
    (hmem : Event.InitNegotiation sid nodes ∈
      (create_key_version_negotiation_session self_address provider access_key
        negotiation_sessions negSessionInit session_id).2.1) :
    self_address ∈ nodes := by
  unfold create_key_version_negotiation_session at hmem
  rcases hcn : clientConnectedNodes self_address provider with e | cn
  · simp [hcn] at hmem
  · simp only [hcn] at hmem
    rcases hview : create_cluster_view self_address provider false with e | v
    · simp [hview] at hmem
    · simp only [hview] at hmem
      rcases hins : containerInsert negotiation_sessions ⟨session_id, access_key⟩ false
        with e | inserted
      · simp [hins] at hmem
      · simp only [hins] at hmem
        rcases hinit : negSessionInit cn with e | u <;>
        · simp only [hinit, List.mem_cons, List.not_mem_nil, or_false] at hmem
          rcases hmem with h | ⟨-, rfl⟩
          · cases h
          · exact clientConnectedNodes_self_mem _ _ _ hcn

theorem new_decryption_session_init_self (self_address : NodeId)
    (provider : ConnectionProvider) (access_key neg_access_key : Secret)
    (decryption_sessions negotiation_sessions : Finset SessionIdWithSubSession)
    (decSessionInit : Option NodeId → H256 → Bool → Bool → Except Error Unit)
    (negSessionInit : Finset NodeId → Except Error Unit) (dec_is_finished : Bool)
    (session_id : SessionId) (origin : Option NodeId) (requester : Requester)
    (version : Option H256) (is_shadow_decryption is_broadcast_decryption : Bool)
    (sid : SessionIdWithSubSession) (nodes : Finset NodeId)
    (hmem : Event.InitNegotiation sid nodes ∈
      (new_decryption_session self_address provider access_key neg_access_key
        decryption_sessions negotiation_sessions decSessionInit negSessionInit
        dec_is_finished session_id origin requester version
        is_shadow_decryption is_broadcast_decryption).2.1) :
    self_address ∈ nodes := by
  unfold new_decryption_session at hmem
  rcases hcn : clientConnectedNodes self_address provider with e | cn
  · simp [hcn] at hmem
  · simp only [hcn] at hmem
    rcases hview : create_cluster_view self_address provider false with e | v
    · simp [hview] at hmem
    · simp only [hview] at hmem
      rcases hins : containerInsert decryption_sessions ⟨session_id, access_key⟩ false
        with e | inserted
      · simp [hins] at hmem
      · simp only [hins] at hmem
        rcases version with _ | ver
        · rcases hres : (create_key_version_negotiation_session self_address provider
              neg_access_key negotiation_sessions negSessionInit session_id).2.2
            with e | neg_sid
          · simp only [hres, List.mem_cons, List.mem_append, List.not_mem_nil,
              or_false] at hmem
            rcases hmem with h | h
            · cases h
            · exact create_key_version_negotiation_session_init_self _ _ _ _ _ _ _ _ h
          · simp only [hres, List.mem_cons, List.mem_append, List.not_mem_nil,
              or_false] at hmem
            rcases hmem with (h | h) | (h | h)
            · cases h
            · exact create_key_version_negotiation_session_init_self _ _ _ _ _ _ _ _ h
            · cases h
            · cases h
        · simp only [List.mem_cons, List.not_mem_nil, or_false] at hmem
          rcases hmem with h | h
          · cases h
          · cases h

theorem new_schnorr_signing_session_init_self (self_address : NodeId)
    (provider : ConnectionProvider) (access_key neg_access_key : Secret)
    (schnorr_sessions negotiation_sessions : Finset SessionIdWithSubSession)
    (schSessionInit : H256 → H256 → Except Error Unit)
    (negSessionInit : Finset NodeId → Except Error Unit) (sch_is_finished : Bool)
    (session_id : SessionId) (requester : Requester)
    (version : Option H256) (message_hash : H256)
    (sid : SessionIdWithSubSession) (nodes : Finset NodeId)
    (hmem : Event.InitNegotiation sid nodes ∈
      (new_schnorr_signing_session self_address provider access_key neg_access_key
        schnorr_sessions negotiation_sessions schSessionInit negSessionInit
        sch_is_finished session_id requester version message_hash).2.1) :
    self_address ∈ nodes := by
  unfold new_schnorr_signing_session at hmem
  rcases hcn : clientConnectedNodes self_address provider with e | cn
  · simp [hcn] at hmem
  · simp only [hcn] at hmem
    rcases hview : create_cluster_view self_address provider false with e | v
    · simp [hview] at hmem
    · simp only [hview] at hmem
      rcases hins : containerInsert schnorr_sessions ⟨session_id, access_key⟩ false
        with e | inserted
      · simp [hins] at hmem
      · simp only [hins] at hmem
        rcases version with _ | ver
        · rcases hres : (create_key_version_negotiation_session self_address provider
              neg_access_key negotiation_sessions negSessionInit session_id).2.2
            with e | neg_sid
          · simp only [hres, List.mem_cons, List.mem_append, List.not_mem_nil,
              or_false] at hmem
            rcases hmem with h | h
            · cases h
            · exact create_key_version_negotiation_session_init_self _ _ _ _ _ _ _ _ h
          · simp only [hres, List.mem_cons, List.mem_append, List.not_mem_nil,
              or_false] at hmem
            rcases hmem with (h | h) | (h | h)
            · cases h
            · exact create_key_version_negotiation_session_init_self _ _ _ _ _ _ _ _ h
            · cases h
            · cases h
        · simp only [List.mem_cons, List.not_mem_nil, or_false] at hmem
          rcases hmem with h | h
          · cases h
          · cases h

theorem new_ecdsa_signing_session_init_self (self_address : NodeId)
    (provider : ConnectionProvider) (access_key neg_access_key : Secret)
    (ecdsa_sessions negotiation_sessions : Finset SessionIdWithSubSession)
    (ecdSessionInit : H256 → H256 → Except Error Unit)
    (negSessionInit : Finset NodeId → Except Error Unit) (ecd_is_finished : Bool)
    (session_id : SessionId) (requester : Requester)
    (version : Option H256) (message_hash : H256)
    (sid : SessionIdWithSubSession) (nodes : Finset NodeId)
    (hmem : Event.InitNegotiation sid nodes ∈
      (new_ecdsa_signing_session self_address provider access_key neg_access_key
        ecdsa_sessions negotiation_sessions ecdSessionInit negSessionInit
        ecd_is_finished session_id requester version message_hash).2.1) :
    self_address ∈ nodes := by
  unfold new_ecdsa_signing_session at hmem
  rcases hcn : clientConnectedNodes self_address provider with e | cn
  · simp [hcn] at hmem
  · simp only [hcn] at hmem
    rcases hview : create_cluster_view self_address provider false with e | v
    · simp [hview] at hmem
    · simp only [hview] at hmem
      rcases hins : containerInsert ecdsa_sessions ⟨session_id, access_key⟩ false
        with e | inserted
      · simp [hins] at hmem
      · simp only [hins] at hmem
        rcases version with _ | ver
        · rcases hres : (create_key_version_negotiation_session self_address provider
              neg_access_key negotiation_sessions negSessionInit session_id).2.2
            with e | neg_sid
          · simp only [hres, List.mem_cons, List.mem_append, List.not_mem_nil,
              or_false] at hmem
            rcases hmem with h | h
            · cases h
            · exact create_key_version_negotiation_session_init_self _ _ _ _ _ _ _ _ h
          · simp only [hres, List.mem_cons, List.mem_append, List.not_mem_nil,
              or_false] at hmem
            rcases hmem with (h | h) | (h | h)
            · cases h
            · exact create_key_version_negotiation_session_init_self _ _ _ _ _ _ _ _ h
            · cases h
            · cases h
        · simp only [List.mem_cons, List.not_mem_nil, or_false] at hmem
          rcases hmem with h | h
          · cases h
          · cases h

/-- C6: the connected-node set built at the start of every client-side
decryption / Schnorr-signing / ECDSA-signing / key-version-negotiation session
creation contains the own address (the code inserts
`self_key_pair.address()` right after the transport snapshot, so this holds
even when the transport `connected_nodes()` answer does not include self); in
particular every connected-node set handed to a negotiation session one-time
setup, in any of the four operations, contains the own address. -/
theorem client_connected_nodes_include_self (self_address : NodeId)
    (provider : ConnectionProvider) (access_key neg_access_key : Secret)
    (decryption_sessions schnorr_sessions ecdsa_sessions negotiation_sessions :
      Finset SessionIdWithSubSession)
    (decSessionInit : Option NodeId → H256 → Bool → Bool → Except Error Unit)
    (schSessionInit ecdSessionInit : H256 → H256 → Except Error Unit)
    (negSessionInit : Finset NodeId → Except Error Unit)
    (dec_is_finished sch_is_finished ecd_is_finished : Bool)
    (session_id : SessionId) (origin : Option NodeId) (requester : Requester)
    (version : Option H256) (is_shadow_decryption is_broadcast_decryption : Bool)
    (message_hash : H256) :
    (∀ s, clientConnectedNodes self_address provider = Except.ok s →
      self_address ∈ s) ∧
    (∀ sid nodes, Event.InitNegotiation sid nodes ∈
      (create_key_version_negotiation_session self_address provider access_key
        negotiation_sessions negSessionInit session_id).2.1 →
      self_address ∈ nodes) ∧
    (∀ sid nodes, Event.InitNegotiation sid nodes ∈
      (new_decryption_session self_address provider access_key neg_access_key
        decryption_sessions negotiation_sessions decSessionInit negSessionInit
        dec_is_finished session_id origin requester version
        is_shadow_decryption is_broadcast_decryption).2.1 →
      self_address ∈ nodes) ∧
    (∀ sid nodes, Event.InitNegotiation sid nodes ∈
      (new_schnorr_signing_session self_address provider access_key neg_access_key
        schnorr_sessions negotiation_sessions schSessionInit negSessionInit
        sch_is_finished session_id requester version message_hash).2.1 →
      self_address ∈ nodes) ∧
    (∀ sid nodes, Event.InitNegotiation sid nodes ∈
      (new_ecdsa_signing_session self_address provider access_key neg_access_key
        ecdsa_sessions negotiation_sessions ecdSessionInit negSessionInit
        ecd_is_finished session_id requester version message_hash).2.1 →
      self_address ∈ nodes) :=
  ⟨fun _ h => clientConnectedNodes_self_mem _ _ _ h,
   fun _ _ h => create_key_version_negotiation_session_init_self _ _ _ _ _ _ _ _ h,
   fun _ _ h => new_decryption_session_init_self _ _ _ _ _ _ _ _ _ _ _ _ _ _ _ _ _ h,
   fun _ _ h => new_schnorr_signing_session_init_self _ _ _ _ _ _ _ _ _ _ _ _ _ _ _ h,
   fun _ _ h => new_ecdsa_signing_session_init_self _ _ _ _ _ _ _ _ _ _ _ _ _ _ _ h⟩

theorem client_connected_nodes_include_self_witness :
    (0 : NodeId) ∈ insert (0 : NodeId) ({5} : Finset NodeId) := by
  exact (client_connected_nodes_include_self 0 ⟨Except.ok {5}, ∅⟩ 1 2 ∅ ∅ ∅ ∅
    (fun _ _ _ _ => Except.ok ()) (fun _ _ => Except.ok ()) (fun _ _ => Except.ok ())
    (fun _ => Except.ok ()) false false false 7 none 9 none false false 11).1
    (insert 0 {5}) rfl

/-- Participant coefficients (`broadcast_shadows()` payload), kept abstract. -/
abbrev Shadows := List Public

/-- The `Ok` payload of a decryption session result: the optional common point
and the decrypted secret. -/
structure DecryptionResult where
  common_point : Option Public
  decrypted_secret : Public
deriving DecidableEq

/-- The answers a removed decryption session gives to the listener wrapper:
`id()`, `origin()`, `is_finished()`, `result()`,
`is_shadow_decryption_requested()`, `requester()`, `broadcast_shadows()` and
`threshold()`. -/
structure DecryptionSessionState where
  id : SessionIdWithSubSession
  origin : Option NodeId
  is_finished : Bool
  result : Option (Except Error DecryptionResult)
  is_shadow_decryption_requested : Option Bool
  requester : Option Requester
  broadcast_shadows : Option Shadows
  threshold : Nat

/-- `DocumentKeyShadowRetrievalArtifacts`. -/
structure DocumentKeyShadowRetrievalArtifacts where
  common_point : Public
  threshold : Nat
  encrypted_document_key : Public
  participants_coefficients : Shadows
deriving DecidableEq

/-- `DocumentKeyShadowRetrievalResult` (origin, params and result). -/
structure DocumentKeyShadowRetrievalResult where
  origin : Option NodeId
  key_id : SessionId
  requester : Requester
  result : Except Error DocumentKeyShadowRetrievalArtifacts

/-- Outcome of one `on_session_removed` callback: a failed `assert!`/`expect`
(`panic`), no emission (`silent`), or a `document_key_shadow_retrieved`
notification. -/
inductive ListenerOutcome where
  | panic
  | silent
  | notified (n : DocumentKeyShadowRetrievalResult)

/-- `ClusterSessionsListener<DecryptionSession>::on_session_removed` of the
listener wrapper: assert the session is finished; if it has a result and
`(is_shadow_decryption_requested, requester, broadcast_shadows)` matches
`(Some(true), Some(_), Some(_))`, emit `document_key_shadow_retrieved`,
mapping an `Ok` result to artifacts whose common point is taken from the
session result and is required (`expect`) to be present; otherwise stay
silent. -/
def on_decryption_session_removed (s : DecryptionSessionState) : ListenerOutcome :=
  if s.is_finished then
    match s.result with
    | none => ListenerOutcome.silent
    | some session_result =>
      match s.is_shadow_decryption_requested, s.requester, s.broadcast_shadows with
      | some true, some requester, some participants_coefficients =>
        match session_result with
        | Except.error e =>
          ListenerOutcome.notified
            { origin := s.origin, key_id := s.id.id, requester := requester,
              result := Except.error e }
        | Except.ok r =>
          match r.common_point with
          | none => ListenerOutcome.panic
          | some cp =>
            ListenerOutcome.notified
              { origin := s.origin, key_id := s.id.id, requester := requester,
                result := Except.ok
                  { common_point := cp, threshold := s.threshold,
                    encrypted_document_key := r.decrypted_secret,
                    participants_coefficients := participants_coefficients } }
      | _, _, _ => ListenerOutcome.silent
  else ListenerOutcome.panic

/-- `FailedContinueAction`: the caller context kept by a negotiation session
to surface a fatal failure.  Only the `Decrypt` variant carries data the
listener uses; the other kinds exist per spec 4.7 (they are silently
ignored). -/
inductive FailedContinueAction where
  | Decrypt (origin : Option NodeId) (requester : Requester)
  | SchnorrSign
  | EcdsaSign
deriving DecidableEq

/-- The answers a removed key-version-negotiation session gives to the
listener wrapper: `meta().id`, `is_finished()`, `result()` and
`take_failed_continue_action()`. -/
structure NegotiationSessionState where
  id : SessionId
  is_finished : Bool
  result : Option (Except Error H256)
  failed_continue_action : Option FailedContinueAction

/-- `ClusterSessionsListener<KeyVersionNegotiationSession>::on_session_removed`
of the listener wrapper: assert the session is finished; keep only sessions
whose result is a fatal error (`Some(Err(e))` with `e` not non-fatal) and
whose taken failed-continue-action is `Decrypt(origin, requester)`, and for
those emit `document_key_shadow_retrieved` carrying the error; everything
else is silently ignored.  The `is_non_fatal` classifier lives in the error
module outside the sources and is therefore a parameter. -/
def on_negotiation_session_removed (nonFatal : Error → Bool)
    (s : NegotiationSessionState) : ListenerOutcome :=
  if s.is_finished then
    match s.result with
    | some (Except.error e) =>
      if nonFatal e then ListenerOutcome.silent
      else
        match s.failed_continue_action with
        | some (FailedContinueAction.Decrypt origin requester) =>
          ListenerOutcome.notified
            { origin := origin, key_id := s.id, requester := requester,
              result := Except.error e }
        | _ => ListenerOutcome.silent
    | _ => ListenerOutcome.silent
  else ListenerOutcome.panic

/-- C7: the decryption listener emits a `DocumentKeyShadowRetrieved`
notification only when the removed session has a result,
`is_shadow_decryption_requested()` answers `Some(true)`, the requester is
present and the broadcast shadows are present (in every other case nothing is
emitted); a successful payload takes its common point from the session result;
and when the session result is `Ok` with an absent common point on the
emitting path, the `expect` contract fails (panic). -/
theorem decryption_listener_spec (s : DecryptionSessionState) :
    (∀ n, on_decryption_session_removed s = ListenerOutcome.notified n →
      s.result ≠ none ∧ s.is_shadow_decryption_requested = some true ∧
      s.requester ≠ none ∧ s.broadcast_shadows ≠ none) ∧
    (∀ n a, on_decryption_session_removed s = ListenerOutcome.notified n →
      n.result = Except.ok a →
      ∃ r, s.result = some (Except.ok r) ∧ r.common_point = some a.common_point) ∧
    (∀ r, s.is_finished = true → s.result = some (Except.ok r) →
      s.is_shadow_decryption_requested = some true →
      s.requester ≠ none → s.broadcast_shadows ≠ none →
      r.common_point = none →
      on_decryption_session_removed s = ListenerOutcome.panic) := by
  obtain ⟨sid, origin, fin, result, shadowReq, req, shadows, thr⟩ := s
  refine ⟨?_, ?_, ?_⟩
  · intro n h
    cases fin <;>
      rcases result with _ | (e | ⟨(_ | cpv), ds⟩) <;>
      rcases shadowReq with _ | b <;> (try cases b) <;>
      rcases req with _ | reqv <;>
      rcases shadows with _ | shv <;>
      simp_all [on_decryption_session_removed]
  · intro n a h ha
    cases fin <;>
      rcases result with _ | (e | ⟨(_ | cpv), ds⟩) <;>
      rcases shadowReq with _ | b <;> (try cases b) <;>
      rcases req with _ | reqv <;>
      rcases shadows with _ | shv <;>
      simp [on_decryption_session_removed] at h <;>
      subst h <;>
      simp_all <;>
      subst ha <;>
      rfl
  · intro r hfin hres hsdr hreqne hshne hcp
    simp only at hfin hres hsdr
    subst hfin
    subst hres
    subst hsdr
    rcases req with _ | reqv
    · exact absurd rfl hreqne
    · rcases shadows with _ | shv
      · exact absurd rfl hshne
      · simp [on_decryption_session_removed, hcp]

theorem decryption_listener_spec_witness :
    (some (Except.ok ⟨some 8, 9⟩) : Option (Except Error DecryptionResult)) ≠ none := by
  exact ((decryption_listener_spec
    ⟨⟨3, 4⟩, none, true, some (Except.ok ⟨some 8, 9⟩), some true, some 6, some [7], 1⟩).1
    _ rfl).1

/-- C8: the negotiation listener emits a `DocumentKeyShadowRetrieved`
notification (carrying the error) iff the removed session result is
`Some(Err(e))` with `e` not classified non-fatal and the taken
failed-continue-action is `Decrypt(origin, requester)`; successful outcomes,
non-fatal errors and non-`Decrypt` failed-continue-actions emit nothing, and
an emitted notification carries exactly that origin, key id, requester and
error. -/
theorem negotiation_listener_spec (nonFatal : Error → Bool)
    (s : NegotiationSessionState) (hfin : s.is_finished = true) :
    ((∃ n, on_negotiation_session_removed nonFatal s = ListenerOutcome.notified n) ↔
      (∃ e origin requester, s.result = some (Except.error e) ∧ nonFatal e = false ∧
        s.failed_continue_action = some (FailedContinueAction.Decrypt origin requester))) ∧
    (∀ n, on_negotiation_session_removed nonFatal s = ListenerOutcome.notified n →
      ∃ e origin requester, s.result = some (Except.error e) ∧ nonFatal e = false ∧
        s.failed_continue_action = some (FailedContinueAction.Decrypt origin requester) ∧
        n.origin = origin ∧ n.key_id = s.id ∧ n.requester = requester ∧
        n.result = Except.error e) := by
  obtain ⟨sid, fin, result, fca⟩ := s
  simp only at hfin
  subst hfin
  refine ⟨?_, ?_⟩
  · rcases result with _ | (e | r)
    · simp [on_negotiation_session_removed]
    · cases hnf : nonFatal e
      · rcases fca with _ | (⟨o, rq⟩ | _ | _) <;>
          simp [on_negotiation_session_removed, hnf]
      · simp [on_negotiation_session_removed, hnf]
    · simp [on_negotiation_session_removed]
  · intro n h
    rcases result with _ | (e | r)
    · simp [on_negotiation_session_removed] at h
    · cases hnf : nonFatal e
      · rcases fca with _ | (⟨o, rq⟩ | _ | _)
        · simp [on_negotiation_session_removed, hnf] at h
        · simp [on_negotiation_session_removed, hnf] at h
          subst h
          exact ⟨e, o, rq, rfl, hnf, rfl, rfl, rfl, rfl, rfl⟩
        · simp [on_negotiation_session_removed, hnf] at h
        · simp [on_negotiation_session_removed, hnf] at h
      · simp [on_negotiation_session_removed, hnf] at h
    · simp [on_negotiation_session_removed] at h

theorem negotiation_listener_spec_witness :
    ∃ n, on_negotiation_session_removed (fun _ => false)
      ⟨3, true, some (Except.error Error.AccessDenied),
        some (FailedContinueAction.Decrypt none 5)⟩ = ListenerOutcome.notified n := by
  exact ((negotiation_listener_spec (fun _ => false)
    ⟨3, true, some (Except.error Error.AccessDenied),
      some (FailedContinueAction.Decrypt none 5)⟩ rfl).1).mpr
    ⟨Error.AccessDenied, none, 5, rfl, rfl, rfl⟩

theorem process_initialization_result_spec_witness :
    process_initialization_result (Except.ok ()) (3 : Nat) false {3} =
      ({3}, Except.ok 3) := by
  exact (process_initialization_result_spec 3 {3} false).2.2

theorem ClusterView_snapshot_frozen_witness :
    (ClusterView.new 0 {1, 2} 3).nodes = {1, 2} := by
  exact (ClusterView_snapshot_frozen 0 {1, 2} 3 1).1

end SecretStore
